import Mathlib

/-!
Shallow embedding of the build artifact registry of `src/build.py`
(classes `PlatformInfo`, `BuildDir`, `BuildInfo`).

Modelling conventions:
* The filesystem is a read-only parameter `FS` with the two primitives the
  code uses, `os.path.exists` and `os.listdir`.  `listdir` is modelled as
  total (the code only calls it on names produced by a previous `listdir`).
* Paths are strings; `os.path.join` on the plain relative components the
  code uses is string concatenation with a slash.
* Python exceptions are modelled with `Except`; the distinct exception
  classes that actually arise are an inductive `PyError`.
* A Python `set` of `BuildInfo` objects compares elements by object
  identity (the class defines neither `__eq__` nor `__hash__`), so every
  `BuildInfo` carries an `oid : Nat` standing for `id(obj)`; the registry
  state carries a `next_oid` counter from which fresh objects draw their
  identity.  The set is modelled as a list kept free of duplicate `oid`s
  (insertion order; iteration order of the Python set is unspecified, but
  no modelled observation depends on it).
* Methods that mutate `self` take the state and return the updated state.
-/

namespace GlitchBuild

/-- Model of `os.path.exists` and `os.listdir`: the only filesystem
primitives the registry code reads. -/
structure FS where
  pathExists : String → Bool
  listdir : String → List String

/-- Model of `os.path.join a b` for the plain relative component names the
code joins (folder names from `listdir`, the literal sidecar file name). -/
def osPathJoin (a b : String) : String := a ++ "/" ++ b

/-- The distinct Python exception classes raised by the modelled code:
`raise Exception(...)` in `PlatformInfo.__init__`, `AttributeError` from
accessing a missing attribute, `NameError` from an unbound name. -/
inductive PyError where
  | exception
  | attributeError
  | nameError
deriving DecidableEq, Repr

/-- Does the second char list start with the first (helper for the Python
substring test). -/
def strStarts : List Char → List Char → Bool
  | [], _ => true
  | _ :: _, [] => false
  | a :: as, b :: bs => a == b && strStarts as bs

/-- Is the first char list a contiguous sublist of the second. -/
def strContains (needle : List Char) : List Char → Bool
  | [] => strStarts needle []
  | c :: t => strStarts needle (c :: t) || strContains needle t

/-- Python string membership `needle in hay` (contiguous substring test;
the empty string is contained in every string). -/
def pyInStr (needle hay : String) : Bool := strContains needle.toList hay.toList

/-- Python `str.lower()`, modelled for ASCII (the only characters the
platform and architecture names the tool handles use): map A-Z to a-z. -/
def pyLower (s : String) : String :=
  String.mk (s.toList.map (fun c =>
    if 65 ≤ c.toNat ∧ c.toNat ≤ 90 then Char.ofNat (c.toNat + 32) else c))

/-- Class `PlatformInfo`: a validated platform target.  Attributes set by
a successful `__init__` (src/build.py lines 66-67). -/
structure PlatformInfo where
  platform : String
  arch : String
deriving DecidableEq, Repr

/-- `PlatformInfo.ALL_PLATFORMS` (line 46). -/
def ALL_PLATFORMS : List String := ["mac", "windows", "linux"]

/-- `PlatformInfo.PLATFORM_ALIASES` (lines 47-52) as an association list. -/
def PLATFORM_ALIASES : List (String × String × String) :=
  [("macos", "mac", "x86_64"),
   ("win", "windows", "x86_64"),
   ("win32", "windows", "x86"),
   ("win64", "windows", "x86_64")]

/-- `PlatformInfo.__init__(self, platform, arch)` (lines 54-67; the Python
default for `arch` is the literal string x86_64, passed explicitly here).
Both arguments are lowercased (twice in the source, idempotent), the alias
table may rewrite the pair, the platform must be one of `ALL_PLATFORMS`,
and the architecture check is the source line 63 test
`arch not in ('x86_64')`: a one-element tuple was evidently intended but
the parentheses denote the plain string, so the test accepts any `arch`
that is a contiguous substring of the string x86_64. -/
def PlatformInfo.init (platform arch : String) : Except PyError PlatformInfo :=
  let platform := pyLower platform
  let arch := pyLower arch
  let pa :=
    match PLATFORM_ALIASES.find? (fun kv => kv.1 == platform) with
    | some kv => kv.2
    | none => (platform, arch)
  let platform := pa.1
  let arch := pa.2
  if platform ∈ ALL_PLATFORMS then
    if pyInStr arch "x86_64" then
      Except.ok { platform := platform, arch := arch }
    else
      Except.error PyError.exception
  else
    Except.error PyError.exception

/-- Class `BuildInfo` (lines 186-217): one build record.  `oid` models the
Python object identity `id(self)` (the class defines neither `__eq__` nor
`__hash__`, so set membership and `==` against another `BuildInfo` use
object identity).  Each of the six optional metadata fields is
`Option (Option String)`: `none` means the attribute was never assigned
(accessing it would raise `AttributeError`), `some none` means it was
assigned Python `None`. -/
structure BuildInfo where
  oid : Nat
  build_path : String
  build_info_path : String
  platform : String
  version : String
  status : Option (Option String)
  app_path : Option (Option String)
  exec_path : Option (Option String)
  zip_path : Option (Option String)
  branch : Option (Option String)
  commit : Option (Option String)
deriving DecidableEq, Repr

/-- `BuildInfo.__init__(self, build_path, platform, version)`
(lines 195-211): derives `build_path = <root>/<platform>/<version>` and
`build_info_path = <build_path>/build_info.yaml`; when that sidecar file
exists it calls `self.read()`, which is `pass` (line 213-214), so none of
the six metadata attributes is assigned; otherwise all six are assigned
`None`. -/
def BuildInfo.init (fs : FS) (oid : Nat) (build_path platform version : String) :
    BuildInfo :=
  let bp := osPathJoin (osPathJoin build_path platform) version
  let bip := osPathJoin bp "build_info.yaml"
  let m : Option (Option String) := if fs.pathExists bip then none else some none
  { oid := oid, build_path := bp, build_info_path := bip,
    platform := platform, version := version,
    status := m, app_path := m, exec_path := m,
    zip_path := m, branch := m, commit := m }

/-- The attribute names resolvable on a constructed `BuildInfo` object:
the instance attributes assigned by `__init__` (the six metadata names
only when the else-branch ran, i.e. when the sidecar file was absent)
plus the names defined in the class body (lines 187-217). -/
def BuildInfo.attrNames (b : BuildInfo) : List String :=
  ["build_path", "build_info_path", "platform", "version"] ++
    (if b.status.isSome then
      ["status", "app_path", "exec_path", "zip_path", "branch", "commit"]
     else []) ++
    ["get", "get_or_create", "read", "write"]

/-- The argument `platform` of `BuildDir.get_build` and
`BuildDir.get_or_create_build` as the call sites pass it: either a plain
string or a `PlatformInfo` object (`build_target`, `fetch_build` and
`run_build` pass `PlatformInfo` instances). -/
inductive PlatformArg where
  | str (s : String)
  | info (p : PlatformInfo)
deriving DecidableEq, Repr

/-- Python evaluation of `build.platform == platform` (line 140):
`build.platform` is a `str`.  Against another `str` this is string
equality; against a `PlatformInfo` instance, `str.__eq__` returns
`NotImplemented` and `PlatformInfo` defines no `__eq__` (its `__cmp__`
is a Python-2 relic that Python 3 ignores), so the comparison falls back
to object identity of two distinct objects: always `False`. -/
def platformArgEq (bp : String) : PlatformArg → Bool
  | PlatformArg.str s => bp == s
  | PlatformArg.info _ => false

/-- Class `BuildDir` (lines 104-183), the registry state: root path,
the lazily built record set (`none` = unloaded, Python `None`), and the
allocation counter for fresh object identities. -/
structure BuildDir where
  build_dir : String
  build_list : Option (List BuildInfo)
  next_oid : Nat
deriving DecidableEq, Repr

/-- `BuildDir.__init__(self, build_dir)` (lines 121-123): stores the root
and leaves `_build_list` as `None` (unloaded). -/
def BuildDir.init (build_dir : String) : BuildDir :=
  { build_dir := build_dir, build_list := none, next_oid := 0 }

/-- Property `BuildDir.path` (lines 125-127). -/
def BuildDir.path (s : BuildDir) : String := s.build_dir

/-- `BuildDir.rebuild` (lines 129-130): reset the cache to unloaded. -/
def BuildDir.rebuild (s : BuildDir) : BuildDir := { s with build_list := none }

/-- Insertion into the Python `set` of `BuildInfo` objects: membership is
by object identity (`oid`); adding an object already in the set is a
no-op, otherwise the object is inserted. -/
def setAdd (b : BuildInfo) (l : List BuildInfo) : List BuildInfo :=
  if l.any (fun x => x.oid == b.oid) then l else l ++ [b]

/-- One iteration of the inner loop of `BuildDir.load` (lines 161-162):
construct `BuildInfo(self.path, platform_folder, version_folder)` as a
fresh object and `self.add_build` it.  During `load` the record set is
always already a `set` (it was initialised by `get_build_list` before
`load` is called), so `add_build`-via-`get_build_list` is the direct
insertion. -/
def BuildDir.loadVersionStep (fs : FS) (platform_folder : String)
    (st : BuildDir) (version_folder : String) : BuildDir :=
  let b := BuildInfo.init fs st.next_oid st.build_dir platform_folder version_folder
  { st with build_list := some (setAdd b (st.build_list.getD [])),
            next_oid := st.next_oid + 1 }

/-- The outer loop body of `BuildDir.load` (lines 159-162): for one
platform folder, iterate over `os.listdir(os.path.join(base_path, platform_folder))`. -/
def BuildDir.loadPlatformStep (fs : FS) (base_path : String)
    (st : BuildDir) (platform_folder : String) : BuildDir :=
  (fs.listdir (osPathJoin base_path platform_folder)).foldl
    (BuildDir.loadVersionStep fs platform_folder) st

/-- `BuildDir.load` (lines 154-162): early return when the root directory
does not exist, otherwise scan exactly two directory levels and add a
fresh record for every `(platform_folder, version_folder)` pair found. -/
def BuildDir.load (s : BuildDir) (fs : FS) : BuildDir :=
  if fs.pathExists s.build_dir then
    (fs.listdir s.build_dir).foldl (BuildDir.loadPlatformStep fs s.build_dir) s
  else s

/-- `BuildDir.get_build_list` (lines 132-136): when the cache is unloaded,
set it to the empty set and run `load`; return the record set together
with the (possibly mutated) registry state. -/
def BuildDir.get_build_list (s : BuildDir) (fs : FS) : List BuildInfo × BuildDir :=
  match s.build_list with
  | some l => (l, s)
  | none =>
      let s1 := BuildDir.load { s with build_list := some [] } fs
      (s1.build_list.getD [], s1)

/-- `BuildDir.add_build` (lines 151-152): `self.get_build_list().add(build)`. -/
def BuildDir.add_build (s : BuildDir) (fs : FS) (build : BuildInfo) : BuildDir :=
  let p := s.get_build_list fs
  { p.2 with build_list := some (setAdd build p.1) }

/-- `BuildDir.get_build` (lines 138-142): linear scan of the record set
for the first record with `build.platform == platform and build.version == version`. -/
def BuildDir.get_build (s : BuildDir) (fs : FS) (platform : PlatformArg)
    (version : String) : Option BuildInfo × BuildDir :=
  let p := s.get_build_list fs
  (p.1.find? (fun b => platformArgEq b.platform platform && b.version == version),
   p.2)

/-- `BuildDir.get_or_create_build` (lines 144-149): look the pair up; when
absent, evaluate `BuildInfo(self.path, platform.platform, version)` — on a
plain string argument the attribute access `platform.platform` raises
`AttributeError`; on a `PlatformInfo` it yields the platform string — then
`add_build` the fresh object and return it. -/
def BuildDir.get_or_create_build (s : BuildDir) (fs : FS)
    (platform : PlatformArg) (version : String) :
    Except PyError (BuildInfo × BuildDir) :=
  let p := s.get_build fs platform version
  match p.1 with
  | some b => Except.ok (b, p.2)
  | none =>
      match platform with
      | PlatformArg.str _ => Except.error PyError.attributeError
      | PlatformArg.info pi =>
          let b := BuildInfo.init fs p.2.next_oid p.2.build_dir pi.platform version
          let s2 : BuildDir := { p.2 with next_oid := p.2.next_oid + 1 }
          Except.ok (b, s2.add_build fs b)

/-- `BuildDir.clean` (lines 164-183).  When the root directory does not
exist nothing happens.  When it exists, `get_build_list` runs first; the
report line then evaluates `build_info.exists()` for each record in the
set, and `BuildInfo` defines no attribute named exists, so a non-empty
set raises `AttributeError` inside the list comprehension; with an empty
set the comprehension never evaluates its filter and the next statement
`shutil.rmtree(build_dir)` reads the unbound name `build_dir` (the
attribute is `self.build_dir`; no local or global `build_dir` is in
scope) and raises `NameError`.  Either way the exception propagates
before anything is deleted and before `self._build_list` is reset, so the
result carries the unchanged filesystem and the state as mutated by
`get_build_list` alone. -/
def BuildDir.clean (s : BuildDir) (fs : FS) : Except PyError Unit × BuildDir × FS :=
  if fs.pathExists s.build_dir then
    let p := s.get_build_list fs
    if p.1.isEmpty then
      (Except.error PyError.nameError, p.2, fs)
    else
      (Except.error PyError.attributeError, p.2, fs)
  else
    (Except.ok (), s, fs)

/-- Decidable equality of `Except` results, used to evaluate the embedded
operations at concrete inputs. -/
instance {α β : Type} [DecidableEq α] [DecidableEq β] : DecidableEq (Except α β) :=
  fun a b =>
    match a, b with
    | Except.ok x, Except.ok y =>
        match decEq x y with
        | isTrue h => isTrue (by rw [h])
        | isFalse h => isFalse (by intro hh; cases hh; exact h rfl)
    | Except.ok _, Except.error _ => isFalse (by intro hh; cases hh)
    | Except.error _, Except.ok _ => isFalse (by intro hh; cases hh)
    | Except.error x, Except.error y =>
        match decEq x y with
        | isTrue h => isTrue (by rw [h])
        | isFalse h => isFalse (by intro hh; cases hh; exact h rfl)

/-- The identity projection of a record list: the `(platform, version)`
pairs in order. -/
def identities (l : List BuildInfo) : List (String × String) :=
  l.map (fun b => (b.platform, b.version))

/-- The `(platform_folder, version_folder)` name pairs a two-level scan of
`root` finds, in scan order. -/
def scanPairs (fs : FS) (root : String) : List (String × String) :=
  ((fs.listdir root).map
    (fun pf => (fs.listdir (osPathJoin root pf)).map (fun vf => (pf, vf)))).flatten

/-! Concrete filesystem fixtures used by witnesses and counterexamples. -/

/-- A filesystem on which no path exists (fresh working directory, the
Builds root has never been created). -/
def fsNone : FS := { pathExists := fun _ => false, listdir := fun _ => [] }

/-- A filesystem holding exactly the empty build directory
`Builds/mac/v1/` and no sidecar file. -/
def fsMacV1 : FS :=
  { pathExists := fun p =>
      p == "Builds" || p == "Builds/mac" || p == "Builds/mac/v1",
    listdir := fun p =>
      if p == "Builds" then ["mac"]
      else if p == "Builds/mac" then ["v1"]
      else [] }

/-- A filesystem holding `Builds/mac/v1/` and `Builds/mac/v2/` (the state
of `fsMacV1` after a second version folder appeared on disk). -/
def fsMacV1V2 : FS :=
  { pathExists := fun p =>
      p == "Builds" || p == "Builds/mac" || p == "Builds/mac/v1" ||
        p == "Builds/mac/v2",
    listdir := fun p =>
      if p == "Builds" then ["mac"]
      else if p == "Builds/mac" then ["v1", "v2"]
      else [] }

/-- A filesystem holding `Builds/notaplatform/v1/`: the first-level folder
name is not one of the enumerated platforms. -/
def fsOdd : FS :=
  { pathExists := fun p =>
      p == "Builds" || p == "Builds/notaplatform" ||
        p == "Builds/notaplatform/v1",
    listdir := fun p =>
      if p == "Builds" then ["notaplatform"]
      else if p == "Builds/notaplatform" then ["v1"]
      else [] }

/-- A filesystem on which the metadata sidecar file
`Builds/mac/v1/build_info.yaml` exists. -/
def fsSidecar : FS :=
  { pathExists := fun p =>
      p == "Builds" || p == "Builds/mac" || p == "Builds/mac/v1" ||
        p == "Builds/mac/v1/build_info.yaml",
    listdir := fun p =>
      if p == "Builds" then ["mac"]
      else if p == "Builds/mac" then ["v1"]
      else [] }

/-- Run `get_or_create_build` and keep the registry state, the exception
state aside (used to chain two calls at a concrete input). -/
def runGOC (s : BuildDir) (fs : FS) (p : PlatformArg) (v : String) : BuildDir :=
  match s.get_or_create_build fs p v with
  | Except.ok r => r.2
  | Except.error _ => s

/-- A registry over `fsMacV1` after its first `get_build_list` (loaded
cache holding the one discovered record). -/
def c9s1 : BuildDir := ((BuildDir.init "Builds").get_build_list fsMacV1).2

/-! Helper lemmas about the object-identity set and the load scan. -/

theorem any_oid_eq_false (b : BuildInfo) (l : List BuildInfo)
    (h : ∀ x ∈ l, x.oid ≠ b.oid) : l.any (fun x => x.oid == b.oid) = false := by
  induction l with
  | nil => rfl
  | cons a t ih =>
      have ha := h a (by simp)
      have ht : ∀ x ∈ t, x.oid ≠ b.oid := fun x hx => h x (by simp [hx])
      simp [ih ht, ha]

theorem setAdd_not_mem (b : BuildInfo) (l : List BuildInfo)
    (h : ∀ x ∈ l, x.oid ≠ b.oid) : setAdd b l = l ++ [b] := by
  simp [setAdd, any_oid_eq_false b l h]

theorem setAdd_self_any (b : BuildInfo) (l : List BuildInfo) :
    (setAdd b l).any (fun x => x.oid == b.oid) = true := by
  by_cases h : l.any (fun x => x.oid == b.oid) = true
  · simp [setAdd, h]
  · simp [setAdd, h]

theorem setAdd_idem (b : BuildInfo) (l : List BuildInfo) :
    setAdd b (setAdd b l) = setAdd b l := by
  have h := setAdd_self_any b l
  show (if (setAdd b l).any (fun x => x.oid == b.oid) then setAdd b l
        else setAdd b l ++ [b]) = setAdd b l
  simp [h]

theorem loadVersionStep_spec (fs : FS) (pf vf : String) (st : BuildDir)
    (l : List BuildInfo) (h1 : st.build_list = some l)
    (h2 : ∀ b ∈ l, b.oid < st.next_oid) :
    (BuildDir.loadVersionStep fs pf st vf).build_list
        = some (l ++ [BuildInfo.init fs st.next_oid st.build_dir pf vf]) ∧
    (BuildDir.loadVersionStep fs pf st vf).next_oid = st.next_oid + 1 ∧
    (BuildDir.loadVersionStep fs pf st vf).build_dir = st.build_dir ∧
    (∀ b ∈ l ++ [BuildInfo.init fs st.next_oid st.build_dir pf vf],
        b.oid < (BuildDir.loadVersionStep fs pf st vf).next_oid) := by
  have hoid : (BuildInfo.init fs st.next_oid st.build_dir pf vf).oid = st.next_oid := rfl
  have hset : setAdd (BuildInfo.init fs st.next_oid st.build_dir pf vf) l
      = l ++ [BuildInfo.init fs st.next_oid st.build_dir pf vf] :=
    setAdd_not_mem _ _ (fun x hx => by
      rw [hoid]; exact Nat.ne_of_lt (h2 x hx))
  refine ⟨?_, rfl, rfl, ?_⟩
  · simp [BuildDir.loadVersionStep, h1, hset]
  · intro b hb
    rcases List.mem_append.mp hb with hb | hb
    · exact Nat.lt_succ_of_lt (h2 b hb)
    · have : b = BuildInfo.init fs st.next_oid st.build_dir pf vf := by
        simpa using hb
      rw [this, hoid]
      exact Nat.lt_succ_self _

theorem loadVersionFold_spec (fs : FS) (pf : String) (vfs : List String) :
    ∀ (st : BuildDir) (l : List BuildInfo),
      st.build_list = some l → (∀ b ∈ l, b.oid < st.next_oid) →
      ∃ lnew,
        (vfs.foldl (BuildDir.loadVersionStep fs pf) st).build_list = some (l ++ lnew) ∧
        identities lnew = vfs.map (fun vf => (pf, vf)) ∧
        (vfs.foldl (BuildDir.loadVersionStep fs pf) st).build_dir = st.build_dir ∧
        (∀ b ∈ l ++ lnew,
            b.oid < (vfs.foldl (BuildDir.loadVersionStep fs pf) st).next_oid) := by
  induction vfs with
  | nil =>
      intro st l h1 h2
      exact ⟨[], by simpa using h1, rfl, rfl, by simpa using h2⟩
  | cons vf vfs ih =>
      intro st l h1 h2
      obtain ⟨hbl, hno, hbd, hinv⟩ := loadVersionStep_spec fs pf vf st l h1 h2
      obtain ⟨lnew, ha, hb, hc, hd⟩ :=
        ih (BuildDir.loadVersionStep fs pf st vf)
          (l ++ [BuildInfo.init fs st.next_oid st.build_dir pf vf]) hbl hinv
      refine ⟨BuildInfo.init fs st.next_oid st.build_dir pf vf :: lnew, ?_, ?_, ?_, ?_⟩
      · rw [List.foldl_cons, ha]
        simp
      · have hplat : (BuildInfo.init fs st.next_oid st.build_dir pf vf).platform = pf := rfl
        have hver : (BuildInfo.init fs st.next_oid st.build_dir pf vf).version = vf := rfl
        simp only [identities, List.map_cons, hplat, hver] at hb ⊢
        rw [hb]
      · rw [List.foldl_cons]
        exact hc.trans hbd
      · rw [List.foldl_cons]
        intro b hb2
        apply hd
        simp only [List.mem_append, List.mem_cons] at hb2 ⊢
        tauto

theorem loadPlatformFold_spec (fs : FS) (base : String) (pfs : List String) :
    ∀ (st : BuildDir) (l : List BuildInfo),
      st.build_list = some l → (∀ b ∈ l, b.oid < st.next_oid) →
      ∃ lnew,
        (pfs.foldl (BuildDir.loadPlatformStep fs base) st).build_list = some (l ++ lnew) ∧
        identities lnew
          = (pfs.map (fun pf =>
              (fs.listdir (osPathJoin base pf)).map (fun vf => (pf, vf)))).flatten ∧
        (pfs.foldl (BuildDir.loadPlatformStep fs base) st).build_dir = st.build_dir ∧
        (∀ b ∈ l ++ lnew,
            b.oid < (pfs.foldl (BuildDir.loadPlatformStep fs base) st).next_oid) := by
  induction pfs with
  | nil =>
      intro st l h1 h2
      exact ⟨[], by simpa using h1, rfl, rfl, by simpa using h2⟩
  | cons pf pfs ih =>
      intro st l h1 h2
      obtain ⟨lnew1, ha1, hb1, hc1, hd1⟩ :=
        loadVersionFold_spec fs pf (fs.listdir (osPathJoin base pf)) st l h1 h2
      obtain ⟨lnew2, ha2, hb2, hc2, hd2⟩ :=
        ih (BuildDir.loadPlatformStep fs base st pf) (l ++ lnew1) ha1 hd1
      refine ⟨lnew1 ++ lnew2, ?_, ?_, ?_, ?_⟩
      · rw [List.foldl_cons, ha2]
        simp
      · simp only [identities, List.map_append, List.map_cons, List.flatten_cons]
          at hb1 hb2 ⊢
        rw [hb1, hb2]
      · rw [List.foldl_cons]
        exact hc2.trans hc1
      · rw [List.foldl_cons]
        intro b hb
        apply hd2
        simp only [List.mem_append] at hb ⊢
        tauto

theorem load_spec (s : BuildDir) (fs : FS) (l : List BuildInfo)
    (h1 : s.build_list = some l) (h2 : ∀ b ∈ l, b.oid < s.next_oid)
    (h3 : fs.pathExists s.build_dir = true) :
    ∃ lnew, (s.load fs).build_list = some (l ++ lnew) ∧
      identities lnew = scanPairs fs s.build_dir := by
  obtain ⟨lnew, ha, hb, _, _⟩ :=
    loadPlatformFold_spec fs s.build_dir (fs.listdir s.build_dir) s l h1 h2
  refine ⟨lnew, ?_, hb⟩
  simpa [BuildDir.load, h3] using ha

/-! Claim theorems. -/

/-- C1 (code evaluation at the failing input): on a fresh registry over an
empty filesystem, calling `get_or_create_build` twice with the same
`PlatformInfo` target and version creates two distinct records with the
same `(platform, version)` identity — the lookup compares the stored
platform string against the `PlatformInfo` object and never matches — and
calling it with a plain platform string instead raises `AttributeError`
when the record has to be created. -/
theorem C1_get_or_create_duplicates :
    identities ((runGOC (runGOC (BuildDir.init "Builds") fsNone
          (PlatformArg.info { platform := "mac", arch := "x86_64" }) "v1") fsNone
          (PlatformArg.info { platform := "mac", arch := "x86_64" }) "v1").build_list.getD [])
        = [("mac", "v1"), ("mac", "v1")] ∧
    (BuildDir.init "Builds").get_or_create_build fsNone (PlatformArg.str "mac") "v1"
        = Except.error PyError.attributeError :=
  ⟨rfl, rfl⟩

/-- C2 (code evaluation at the failing input): on a registry whose root
exists and holds one build, `clean` raises `AttributeError` (the report
step calls the undefined method `exists` on a record); the root directory
still exists afterwards and the in-memory records are not reset to
empty. -/
theorem C2_clean_raises :
    ((BuildDir.init "Builds").clean fsMacV1).1 = Except.error PyError.attributeError ∧
    ((BuildDir.init "Builds").clean fsMacV1).2.2.pathExists "Builds" = true ∧
    identities (((BuildDir.init "Builds").clean fsMacV1).2.1.build_list.getD [])
        = [("mac", "v1")] :=
  ⟨rfl, rfl, rfl⟩

/-- C3 counterexample: adding two distinct record objects that carry the
same `(platform, version)` identity leaves both in the registry — the set
deduplicates by object identity, not by `(platform, version)` — so the
records collection holds a duplicated identity. -/
theorem C3_counterexample :
    identities ((((({ build_dir := "Builds", build_list := some [], next_oid := 2 } :
            BuildDir).add_build fsNone
          (BuildInfo.init fsNone 0 "Builds" "mac" "v1")).add_build fsNone
          (BuildInfo.init fsNone 1 "Builds" "mac" "v1"))).build_list.getD [])
        = [("mac", "v1"), ("mac", "v1")] ∧
    ¬ (identities ((((({ build_dir := "Builds", build_list := some [], next_oid := 2 } :
            BuildDir).add_build fsNone
          (BuildInfo.init fsNone 0 "Builds" "mac" "v1")).add_build fsNone
          (BuildInfo.init fsNone 1 "Builds" "mac" "v1"))).build_list.getD [])).Nodup :=
  ⟨rfl, by decide⟩

/-- C3 amended: `add` deduplicates by record object identity only.
Re-adding the very same record object is a silent no-op (idempotent), but
adding a distinct record object whose `(platform, version)` identity is
already present silently creates a coexisting duplicate: from a loaded
registry, adding two records with fresh distinct object identities
appends both, whatever their `(platform, version)` fields. -/
theorem C3_add_object_identity :
    (∀ (s : BuildDir) (fs : FS) (b : BuildInfo),
        (s.add_build fs b).add_build fs b = s.add_build fs b) ∧
    (∀ (fs : FS) (d : String) (n : Nat) (l : List BuildInfo) (b1 b2 : BuildInfo),
        b1.oid ≠ b2.oid → (∀ x ∈ l, x.oid ≠ b1.oid) → (∀ x ∈ l, x.oid ≠ b2.oid) →
        ((({ build_dir := d, build_list := some l, next_oid := n } :
              BuildDir).add_build fs b1).add_build fs b2).build_list
          = some (l ++ [b1, b2])) := by
  constructor
  · intro s fs b
    show ({ (s.get_build_list fs).2 with
        build_list := some (setAdd b (setAdd b (s.get_build_list fs).1)) } : BuildDir)
      = { (s.get_build_list fs).2 with build_list := some (setAdd b (s.get_build_list fs).1) }
    rw [setAdd_idem]
  · intro fs d n l b1 b2 h12 hl1 hl2
    show some (setAdd b2 (setAdd b1 l)) = some (l ++ [b1, b2])
    rw [setAdd_not_mem b1 l hl1, setAdd_not_mem b2 (l ++ [b1]) ?_]
    · simp
    · intro x hx
      rcases List.mem_append.mp hx with hx | hx
      · exact hl2 x hx
      · have : x = b1 := by simpa using hx
        rw [this]
        exact h12

/-- C3 amended, witness at a concrete input: the same record object added
twice is stored once; two distinct objects with the identical identity
pair (mac, v1) are both stored. -/
theorem C3_add_object_identity_witness :
    ((BuildDir.init "Builds").add_build fsNone
          (BuildInfo.init fsNone 5 "Builds" "mac" "v1")).add_build fsNone
          (BuildInfo.init fsNone 5 "Builds" "mac" "v1")
        = (BuildDir.init "Builds").add_build fsNone
            (BuildInfo.init fsNone 5 "Builds" "mac" "v1") ∧
    ((({ build_dir := "Builds", build_list := some [], next_oid := 2 } :
            BuildDir).add_build fsNone
          (BuildInfo.init fsNone 0 "Builds" "mac" "v1")).add_build fsNone
          (BuildInfo.init fsNone 1 "Builds" "mac" "v1")).build_list
        = some [BuildInfo.init fsNone 0 "Builds" "mac" "v1",
                BuildInfo.init fsNone 1 "Builds" "mac" "v1"] := by
  constructor
  · exact C3_add_object_identity.1 (BuildDir.init "Builds") fsNone
      (BuildInfo.init fsNone 5 "Builds" "mac" "v1")
  · have h := C3_add_object_identity.2 fsNone "Builds" 2 []
      (BuildInfo.init fsNone 0 "Builds" "mac" "v1")
      (BuildInfo.init fsNone 1 "Builds" "mac" "v1")
      (by decide) (by simp) (by simp)
    simpa using h

/-- C4 counterexample: the metadata sidecar path of a record is
`build_info.yaml` inside the build path, not the file name build_info the
claim states. -/
theorem C4_counterexample :
    (BuildInfo.init fsNone 0 "Builds" "mac" "v1").build_info_path
        = "Builds/mac/v1/build_info.yaml" ∧
    ¬ ((BuildInfo.init fsNone 0 "Builds" "mac" "v1").build_info_path
        = osPathJoin (BuildInfo.init fsNone 0 "Builds" "mac" "v1").build_path
            "build_info") :=
  ⟨rfl, by decide⟩

/-- C4 amended: for every record constructed with
`(rootDirectory, platform, version)`, the derived build path is
root/platform/version and the derived metadata path is the build path
joined with the file name `build_info.yaml`. -/
theorem C4_derived_paths (fs : FS) (oid : Nat) (root p v : String) :
    (BuildInfo.init fs oid root p v).build_path = osPathJoin (osPathJoin root p) v ∧
    (BuildInfo.init fs oid root p v).build_info_path
        = osPathJoin (osPathJoin (osPathJoin root p) v) "build_info.yaml" :=
  ⟨rfl, rfl⟩

/-- C5 (code evaluation at the failing input): the architecture test
`arch not in ('x86_64')` is a substring test against the string x86_64,
so construction accepts the architectures x86 (reached via the win32
alias and directly) and even the empty string; an architecture that is
not a substring, such as arm64, is still rejected. -/
theorem C5_substring_arch_accepted :
    PlatformInfo.init "win32" "x86_64"
        = Except.ok { platform := "windows", arch := "x86" } ∧
    PlatformInfo.init "windows" "x86"
        = Except.ok { platform := "windows", arch := "x86" } ∧
    PlatformInfo.init "windows" ""
        = Except.ok { platform := "windows", arch := "" } ∧
    PlatformInfo.init "windows" "arm64" = Except.error PyError.exception := by
  refine ⟨?_, ?_, ?_, ?_⟩ <;> decide

/-- C6: when the registry root does not exist on disk, `load` leaves the
state untouched and raises nothing, the first `get_build_list` yields the
empty record set and leaves the registry in the loaded-but-empty state,
and `clean` is a no-op that raises nothing. -/
theorem C6_missing_root (s : BuildDir) (fs : FS)
    (h1 : fs.pathExists s.build_dir = false) (h2 : s.build_list = none) :
    s.load fs = s ∧
    (s.get_build_list fs).1 = [] ∧
    (s.get_build_list fs).2.build_list = some [] ∧
    s.clean fs = (Except.ok (), s, fs) := by
  refine ⟨?_, ?_, ?_, ?_⟩
  · simp [BuildDir.load, h1]
  · simp [BuildDir.get_build_list, h2, BuildDir.load, h1]
  · simp [BuildDir.get_build_list, h2, BuildDir.load, h1]
  · simp [BuildDir.clean, h1]

/-- C6 witness: the fresh registry rooted at NoBuilds over the empty
filesystem. -/
theorem C6_missing_root_witness :
    fsNone.pathExists (BuildDir.init "NoBuilds").build_dir = false ∧
    (BuildDir.init "NoBuilds").build_list = none ∧
    ((BuildDir.init "NoBuilds").load fsNone = BuildDir.init "NoBuilds" ∧
      ((BuildDir.init "NoBuilds").get_build_list fsNone).1 = [] ∧
      ((BuildDir.init "NoBuilds").get_build_list fsNone).2.build_list = some [] ∧
      (BuildDir.init "NoBuilds").clean fsNone
        = (Except.ok (), BuildDir.init "NoBuilds", fsNone)) :=
  ⟨rfl, rfl, C6_missing_root (BuildDir.init "NoBuilds") fsNone rfl rfl⟩

/-- C7 (code evaluation at the failing input): no constructed record
resolves an attribute named exists — the class defines no such method —
and consequently the reporting step of `clean` on a registry holding one
record raises `AttributeError` instead of using it. -/
theorem C7_no_exists_attribute :
    (∀ b : BuildInfo, "exists" ∉ BuildInfo.attrNames b) ∧
    ((BuildDir.init "Builds").clean fsOdd).1 = Except.error PyError.attributeError := by
  constructor
  · intro b
    cases h : b.status <;> simp [BuildInfo.attrNames, h]
  · rfl

/-- C8 counterexample: when the metadata sidecar file exists, `read` is a
no-op, so the metadata fields are never assigned at all: `status` is in
the unassigned state (`none`), not the assigned-null state (`some none`)
the claim requires. -/
theorem C8_counterexample :
    fsSidecar.pathExists "Builds/mac/v1/build_info.yaml" = true ∧
    (BuildInfo.init fsSidecar 0 "Builds" "mac" "v1").status = none ∧
    ¬ ((BuildInfo.init fsSidecar 0 "Builds" "mac" "v1").status
        = some (none : Option String)) :=
  ⟨rfl, rfl, by decide⟩

/-- C8 amended: construction is total (never fails, sidecar or not); when
the sidecar file is missing all six metadata fields are assigned null,
and when it exists the stubbed `read` assigns nothing, leaving all six
fields unassigned (so accessing them would raise `AttributeError`); the
six fields always agree. -/
theorem C8_metadata_fields (fs : FS) (oid : Nat) (root p v : String) :
    ((BuildInfo.init fs oid root p v).status =
        if fs.pathExists
            (osPathJoin (osPathJoin (osPathJoin root p) v) "build_info.yaml")
        then none else some none) ∧
    (BuildInfo.init fs oid root p v).app_path = (BuildInfo.init fs oid root p v).status ∧
    (BuildInfo.init fs oid root p v).exec_path = (BuildInfo.init fs oid root p v).status ∧
    (BuildInfo.init fs oid root p v).zip_path = (BuildInfo.init fs oid root p v).status ∧
    (BuildInfo.init fs oid root p v).branch = (BuildInfo.init fs oid root p v).status ∧
    (BuildInfo.init fs oid root p v).commit = (BuildInfo.init fs oid root p v).status :=
  ⟨rfl, rfl, rfl, rfl, rfl, rfl⟩

/-- C9: on a loaded registry `get_build_list` returns the cached set
without reading the disk at all (whatever filesystem it is given), and
`rebuild` resets the cache to the unloaded state so that the next
`get_build_list` rescans the given filesystem from scratch. -/
theorem C9_rebuild_forces_rescan (s : BuildDir) (fs : FS) (l : List BuildInfo)
    (h : s.build_list = some l) :
    s.get_build_list fs = (l, s) ∧
    s.rebuild.build_list = none ∧
    s.rebuild.get_build_list fs
      = ((({ s with build_list := some [] } : BuildDir).load fs).build_list.getD [],
         ({ s with build_list := some [] } : BuildDir).load fs) := by
  refine ⟨?_, rfl, rfl⟩
  simp [BuildDir.get_build_list, h]

/-- C9 witness: after loading over `fsMacV1`, the version folder v2 newly
present in `fsMacV1V2` is invisible to `get_build_list` until `rebuild`,
and the first `get_build_list` after `rebuild` discovers it. -/
theorem C9_rebuild_forces_rescan_witness :
    c9s1.build_list = some (c9s1.build_list.getD []) ∧
    (c9s1.get_build_list fsMacV1V2 = (c9s1.build_list.getD [], c9s1) ∧
      c9s1.rebuild.build_list = none ∧
      c9s1.rebuild.get_build_list fsMacV1V2
        = ((({ c9s1 with build_list := some [] } : BuildDir).load fsMacV1V2).build_list.getD [],
           ({ c9s1 with build_list := some [] } : BuildDir).load fsMacV1V2)) ∧
    identities (c9s1.get_build_list fsMacV1V2).1 = [("mac", "v1")] ∧
    identities (c9s1.rebuild.get_build_list fsMacV1V2).1 = [("mac", "v1"), ("mac", "v2")] :=
  ⟨rfl, C9_rebuild_forces_rescan c9s1 fsMacV1V2 (c9s1.build_list.getD []) rfl, rfl, rfl⟩

/-- C10: when the root directory exists, the scan triggered by the first
`get_build_list` creates one record per `(platform_folder, version_folder)`
name pair found on disk, with no validation of the first-level name
against the enumerated platform set — the resulting identities are
exactly the scanned name pairs, whatever they are. -/
theorem C10_load_no_validation (s : BuildDir) (fs : FS)
    (h1 : s.build_list = none) (h2 : fs.pathExists s.build_dir = true) :
    identities (s.get_build_list fs).1 = scanPairs fs s.build_dir := by
  obtain ⟨lnew, ha, hb⟩ :=
    load_spec { s with build_list := some [] } fs [] rfl (by simp) h2
  simp only [BuildDir.get_build_list, h1]
  rw [ha]
  simpa using hb

/-- C10 witness: a root holding the single pair notaplatform/v1 yields
exactly one record whose platform is notaplatform, a name outside the
enumerated platform set. -/
theorem C10_load_no_validation_witness :
    (BuildDir.init "Builds").build_list = none ∧
    fsOdd.pathExists (BuildDir.init "Builds").build_dir = true ∧
    identities ((BuildDir.init "Builds").get_build_list fsOdd).1
        = scanPairs fsOdd (BuildDir.init "Builds").build_dir ∧
    scanPairs fsOdd "Builds" = [("notaplatform", "v1")] ∧
    "notaplatform" ∉ ALL_PLATFORMS :=
  ⟨rfl, rfl, C10_load_no_validation (BuildDir.init "Builds") fsOdd rfl rfl,
   rfl, by decide⟩

end GlitchBuild


